import Mathlib

/-!
Shallow embedding of the LoanPro loan-management core (src/loanpro) and
verification of its specification claims.

Modelling conventions:
* Dates and timestamps are day numbers (`Int`); the repository only ever
  compares dates and adds day offsets (`timedelta(days = ...)`).
* Python `Decimal` values are modelled as exact rationals (`ℚ`).  All
  `Decimal` quantities appearing in the repository's formulas stay well
  inside the 28-significant-digit context, so no `Decimal` rounding step is
  observable at the granularity of the claims.
* Python `float` arithmetic (used only in `Customer.calculate_credit_score`
  for the on-time ratio) is modelled faithfully as IEEE-754 binary64
  round-to-nearest-even with a 53-bit significand and unbounded exponent;
  all values reached there (ratios in [0,1], products in [0,150]) lie in
  the binary64 normal range, where this model is exact.
* Django model rows become Lean structures; ORM query sets become lists;
  the HTTP layer's outcome is an `Except` value, `.error` carrying the
  message of the 4xx response and `.ok` the updated state.
-/

attribute [local semireducible] Rat.mul Rat.inv Rat.add Rat.sub Rat.ofScientific

namespace LoanPro

/-- days since an arbitrary epoch; the code only adds day offsets and compares. -/
abbrev Date := Int

/-! ## A model of IEEE-754 binary64 arithmetic on exact rationals -/

/-- bit-length recursion on a fuel argument (the fuel is only ever decremented,
so passing `n` itself as fuel makes the recursion structural and
kernel-reducible). -/
def bitlenAux : Nat → Nat → Nat
  | 0, _ => 0
  | f + 1, n => if n = 0 then 0 else bitlenAux f (n / 2) + 1

/-- number of binary digits of a natural number (`bitlen 0 = 0`). -/
def bitlen (n : Nat) : Nat := bitlenAux n n

/-- 2 raised to an integer power, as a rational. -/
def pow2z (e : Int) : ℚ :=
  if 0 ≤ e then ((2 ^ e.toNat : Nat) : ℚ) else 1 / ((2 ^ (-e).toNat : Nat) : ℚ)

/-- nearest integer to a rational, ties going to the even integer
(the IEEE-754 default rounding direction). -/
def rne (q : ℚ) : Int :=
  let f := ⌊q⌋
  if q - f < 1 / 2 then f
  else if (1 : ℚ) / 2 < q - f then f + 1
  else if f % 2 = 0 then f else f + 1

/-- floor of the base-2 logarithm of a positive rational: shifting the
numerator left by `bitlen den` guarantees the integer part of the shifted
quotient is nonzero, so its bit length locates the leading binary digit. -/
def floorLog2 (q : ℚ) : Int :=
  let a := q.num.toNat
  let b := q.den
  (bitlen (a * 2 ^ bitlen b / b) : Int) - 1 - (bitlen b : Int)

/-- round a rational to the nearest binary64 value (53 significant bits,
round-to-nearest ties-to-even, unbounded exponent).  This is exact IEEE-754
binary64 semantics throughout the normal range, which covers every float the
credit-score routine can produce. -/
def roundD (q : ℚ) : ℚ :=
  if q = 0 then 0
  else if 0 < q then
    let e : Int := floorLog2 q - 52;
    (rne (q / pow2z e) : ℚ) * pow2z e
  else
    let e : Int := floorLog2 (-q) - 52;
    (0 : ℚ) - ((rne ((0 - q) / pow2z e) : ℚ) * pow2z e)

/-- Python `int(x)`: truncation of a float toward zero. -/
def pytrunc (q : ℚ) : Int := if q < 0 then -⌊-q⌋ else ⌊q⌋

/-! ## Data model (src/loanpro/models.py) -/

/-- `KYCVerification` rows (models.py:98-238); only the fields the claims
touch are modelled. -/
structure KYCVerification where
  bvn_verified : Bool
  nin_verified : Bool
  verification_status : String
  deriving DecidableEq, Repr

/-- `KYCVerification.is_fully_verified` (models.py:208-215). -/
def KYCVerification.is_fully_verified (k : KYCVerification) : Bool :=
  k.bvn_verified && k.nin_verified && k.verification_status == "verified"

/-- `Payment` rows (models.py:921-936); `is_partial` and audit timestamps are
irrelevant to every claim and omitted. -/
structure Payment where
  amount : ℚ
  due_date : Date
  paid_date : Option Date
  status : String
  deriving DecidableEq, Repr

/-- `Payment.is_on_time` (models.py:938-942): `due_date` is a non-nullable
column, hence always truthy, so only `paid_date` can make the guard fail. -/
def Payment.is_on_time (p : Payment) : Bool :=
  match p.paid_date with
  | some d => decide (d ≤ p.due_date)
  | none => false

/-- `Loan` rows (models.py:758-888) with their payment set
(`related_name='payments'`).  `approved_by` holds a user id. -/
structure Loan where
  amount : ℚ
  interest_rate : ℚ
  duration_months : Nat
  status : String
  approved_by : Option Nat
  disbursed_at : Option Date
  due_date : Option Date
  payments : List Payment
  deriving DecidableEq, Repr

/-- `Customer` rows (models.py:241-397) with their loan set
(`related_name='loans'`) and optional one-to-one `kyc_verification`. -/
structure Customer where
  tier : Int
  credit_score : Int
  current_borrow_limit : ℚ
  is_address_verified : Bool
  approval_status : String
  kyc_verification : Option KYCVerification
  loans : List Loan
  deriving DecidableEq, Repr

/-! ## Customer methods (models.py) -/

/-- `Customer.get_base_limit_for_tier` (models.py:435-462). -/
def Customer.get_base_limit_for_tier (c : Customer) : ℚ :=
  if c.tier = 1 then 200000
  else if c.tier = 2 then 500000
  else if c.tier = 3 then 2000000
  else if c.tier = 4 then 5000000
  else 0

/-- the payment-counting loop of `Customer.calculate_credit_score`
(models.py:498-506): every payment of every loan is classified as on-time or
late, with no third bucket. -/
def tallyLoop (loans : List Loan) : Nat × Nat :=
  loans.foldl
    (fun acc loan =>
      loan.payments.foldl
        (fun acc2 p =>
          if p.is_on_time then (acc2.1 + 1, acc2.2) else (acc2.1, acc2.2 + 1))
        acc)
    (0, 0)

/-- the on-time factor `int(on_time_ratio * 150)` (models.py:510-511):
a binary64 division followed by a binary64 multiplication by 150, truncated
to an integer. -/
def pyOnTimeFactor (onTime tot : Nat) : Int :=
  pytrunc (roundD (roundD ((onTime : ℚ) / (tot : ℚ)) * 150))

/-- `Customer.calculate_credit_score` (models.py:464-527). -/
def Customer.calculate_credit_score (c : Customer) : Int :=
  if c.loans = [] then 300
  else
    let tally := tallyLoop c.loans
    let onTime := tally.1
    let lateP := tally.2
    let total_loans := c.loans.length
    let score : Int := 300
    let score := if 0 < onTime + lateP then score + pyOnTimeFactor onTime (onTime + lateP) else score
    let score := if 0 < total_loans then score + min ((total_loans : Int) * 10) 50 else score
    let score := score + c.tier * 25
    let score := if 0 < lateP then score - min ((lateP : Int) * 20) 200 else score
    min (max score 300) 850

/-- `Customer.update_credit_score` (models.py:529-541). -/
def Customer.update_credit_score (c : Customer) : Customer :=
  { c with credit_score := c.calculate_credit_score }

/-- `Customer.update_borrow_limit` (models.py:543-576): the multiplier
literals `Decimal('1.5')` etc. are the exact rationals written here. -/
def Customer.update_borrow_limit (c : Customer) : Customer :=
  let base_limit := c.get_base_limit_for_tier
  let multiplier : ℚ :=
    if c.credit_score ≥ 750 then 1.5
    else if c.credit_score ≥ 650 then 1.3
    else if c.credit_score ≥ 550 then 1.1
    else 0.8
  { c with current_borrow_limit := base_limit * multiplier }

/-- `Customer.is_kyc_verified` (models.py:578-588): a missing
`KYCVerification` row raises `DoesNotExist`, caught and turned into `False`. -/
def Customer.is_kyc_verified (c : Customer) : Bool :=
  match c.kyc_verification with
  | some k => k.is_fully_verified
  | none => false

/-- `Customer.is_account_approved` (models.py:590-597). -/
def Customer.is_account_approved (c : Customer) : Bool :=
  c.approval_status == "approved"

/-- `Customer.get_kyc_status` (models.py:617-627): a missing row yields the
literal `'not_started'`, otherwise the row's own `verification_status`. -/
def Customer.get_kyc_status (c : Customer) : String :=
  match c.kyc_verification with
  | some k => k.verification_status
  | none => "not_started"

/-! ## Loan methods (models.py) -/

/-- `Loan.save` (models.py:890-893): the override fills in `due_date` the
first time the loan is saved with status `'disbursed'`; `now` stands for
`datetime.now()`. -/
def Loan.save (now : Date) (l : Loan) : Loan :=
  if l.status = "disbursed" ∧ l.due_date = none then
    { l with due_date := some (now + 30 * (l.duration_months : Int)) }
  else l

/-- `Loan.calculate_monthly_payment` (models.py:895-906). -/
def Loan.calculate_monthly_payment (l : Loan) : ℚ :=
  if l.duration_months = 0 then l.amount
  else
    let monthly_rate := l.interest_rate / 100 / 12
    if monthly_rate = 0 then l.amount / (l.duration_months : ℚ)
    else
      l.amount * monthly_rate * (1 + monthly_rate) ^ l.duration_months /
        ((1 + monthly_rate) ^ l.duration_months - 1)

/-- `Loan.get_total_amount` (models.py:908-910). -/
def Loan.get_total_amount (l : Loan) : ℚ :=
  l.calculate_monthly_payment * (l.duration_months : ℚ)

/-- `Loan.get_outstanding_balance` (models.py:912-916): the SQL
`Sum('amount')` over the completed payments is modelled as a left fold, and
its `None`-on-empty result coalesced with `or Decimal('0.00')` starts the
fold at 0. -/
def Loan.get_outstanding_balance (l : Loan) : ℚ :=
  let total_paid :=
    (l.payments.filter (fun p => p.status == "completed")).foldl
      (fun acc p => acc + p.amount) 0
  l.get_total_amount - total_paid

/-! ## Loan application validation (src/loanpro/serializers.py) -/

/-- `LoanCreateSerializer.validate` (serializers.py:536-618).  An error is the
pair of the field key and the message of the raised `ValidationError`; the
two messages that interpolate amounts via f-strings are modelled by their
static text.  The `if not customer` branch cannot fire here because the
model passes the customer by value, and `if not amount` / `if not
duration_months` fire exactly on the Python-falsy value 0. -/
def validate (customer : Customer) (amount : ℚ) (duration_months : Nat) :
    Except (String × String) Unit :=
  if amount = 0 then
    .error ("amount", "Loan amount is required to submit a loan application.")
  else if duration_months = 0 then
    .error ("duration_months", "Loan duration is required to submit a loan application.")
  else if ¬ customer.is_account_approved then
    .error ("non_field_errors", "Customer account must be approved before applying for loans. Please contact support for account approval.")
  else if ¬ customer.is_kyc_verified then
    (if customer.get_kyc_status = "no_kyc" then
      .error ("non_field_errors", "KYC verification is required before applying for loans. Please complete your BVN and NIN verification.")
    else if customer.get_kyc_status = "partial" then
      .error ("non_field_errors", "Incomplete KYC verification. Please complete both BVN and NIN verification before applying for loans.")
    else if customer.get_kyc_status = "pending" then
      .error ("non_field_errors", "Your KYC verification is pending review. Please wait for verification to complete before applying for loans.")
    else
      .error ("non_field_errors", "KYC verification is required before applying for loans. Please complete your verification process."))
  else if customer.loans.any (fun l => l.status == "active") then
    .error ("non_field_errors", "Customer has an active loan. Only one active loan per customer is allowed.")
  else if customer.current_borrow_limit < amount then
    .error ("amount", "Loan amount exceeds your current borrow limit.")
  else if 50000 < amount ∧ 60 < duration_months then
    .error ("duration_months", "For loans over 50000, maximum duration is 60 months.")
  else if amount ≤ 10000 ∧ 36 < duration_months then
    .error ("duration_months", "For loans 10000 or less, maximum duration is 36 months.")
  else
    .ok ()

/-! ## View actions (src/loanpro/views.py) -/

/-- `LoanViewSet.approve` (views.py:746-778); `approver` is the id of
`request.user`, `c` the loan's customer.  Audit logging is an external sink
and not part of the returned state. -/
def approve (approver : Nat) (c : Customer) (l : Loan) : Except String Loan :=
  if l.status ≠ "pending" then
    .error "Only pending loans can be approved"
  else if ¬ c.is_address_verified then
    .error "Customer address must be verified before loan approval"
  else
    .ok { l with status := "approved", approved_by := some approver }

/-- `LoanViewSet.create_payment_schedule` (views.py:842-854): one pending
payment per month, each for the monthly payment, due 30·(month+1) days after
the disbursement date. -/
def create_payment_schedule (now : Date) (l : Loan) : List Payment :=
  (List.range l.duration_months).map
    (fun (month : Nat) =>
      { amount := l.calculate_monthly_payment
        due_date := now + 30 * ((month : Int) + 1)
        paid_date := none
        status := "pending" })

/-- `LoanViewSet.disburse` (views.py:808-840): status check, then the status
and timestamp updates persisted through `Loan.save` (which fills in
`due_date`), then schedule creation.  `now` stands for the current time. -/
def disburse (now : Date) (l : Loan) : Except String Loan :=
  if l.status ≠ "approved" then
    .error "Only approved loans can be disbursed"
  else
    let l1 := Loan.save now { l with status := "disbursed", disbursed_at := some now }
    .ok { l1 with payments := l1.payments ++ create_payment_schedule now l1 }

/-- `Payment.save()` inside `mark_paid`: the payment made completed today. -/
def Payment.markCompleted (today : Date) (p : Payment) : Payment :=
  { p with status := "completed", paid_date := some today }

/-- `PaymentViewSet.mark_paid` (views.py:924-949) acting on payment `j` of
loan `i` of customer `c`; `today` stands for `timezone.now().date()`.  An
out-of-range index models the ORM 404 (outside every claim).  The state
threading follows the code: the payment row is saved first, so the score,
limit and outstanding-balance computations all see it completed. -/
def mark_paid (today : Date) (c : Customer) (i j : Nat) : Except String Customer :=
  match c.loans.get? i with
  | none => .error "Not found."
  | some loan =>
    match loan.payments.get? j with
    | none => .error "Not found."
    | some payment =>
      if payment.status = "completed" then
        .error "Payment is already completed"
      else
        let loan1 := { loan with payments := loan.payments.set j (payment.markCompleted today) }
        let c1 := { c with loans := c.loans.set i loan1 }
        let c2 := c1.update_credit_score.update_borrow_limit
        if loan1.get_outstanding_balance ≤ (0 : ℚ) then
          .ok { c2 with loans := c2.loans.set i (Loan.save today { loan1 with status := "completed" }) }
        else
          .ok c2

/-- `LoanViewSet.request_another_loan` (views.py:856-907) on loan `i` of
customer `c`: role gate, ownership gate, first-payment gate, pending-loan
gate, then `LoanCreateSerializer` validation; on success the score and limit
are refreshed and the new pending loan is created. -/
def request_another_loan (role : String) (is_owner : Bool) (c : Customer) (i : Nat)
    (amount interest_rate : ℚ) (duration_months : Nat) :
    Except String (Customer × Loan) :=
  if role ≠ "customer" then .error "Only customers can request loans"
  else if ¬ is_owner then .error "Access denied"
  else
    match c.loans.get? i with
    | none => .error "Not found."
    | some current_loan =>
      if (current_loan.payments.filter (fun p => p.status == "completed")).length = 0 then
        .error "At least one payment must be completed before requesting another loan"
      else if c.loans.any (fun l => l.status == "pending") then
        .error "You already have a pending loan request"
      else
        match validate c amount duration_months with
        | .error e => .error e.2
        | .ok _ =>
          let c1 := c.update_credit_score.update_borrow_limit
          let newLoan : Loan :=
            { amount := amount
              interest_rate := interest_rate
              duration_months := duration_months
              status := "pending"
              approved_by := none
              disbursed_at := none
              due_date := none
              payments := [] }
          .ok ({ c1 with loans := c1.loans ++ [newLoan] }, newLoan)

/-! ## Claim-side (specification) definitions

These follow the wording of the claims/spec, to be compared with the
definitions above that were translated from the source. -/

/-- base limit table of claim C2: `{1: 200000, 2: 500000, 3: 2000000,
4: 5000000}`, any other tier mapping to 0. -/
def specBaseLimit (tier : Int) : ℚ :=
  if tier = 1 then 200000
  else if tier = 2 then 500000
  else if tier = 3 then 2000000
  else if tier = 4 then 5000000
  else 0

/-- multiplier table of claim C2: 1.5 for s ≥ 750, 1.3 for s ≥ 650,
1.1 for s ≥ 550, 0.8 otherwise. -/
def specMultiplier (score : Int) : ℚ :=
  if score ≥ 750 then 1.5
  else if score ≥ 650 then 1.3
  else if score ≥ 550 then 1.1
  else 0.8

/-- rounding to 2 decimal places (ties to even, as `Decimal` quantisation
would do); claim C2 states the stored limit equals this rounding of
base × multiplier. -/
def round2 (q : ℚ) : ℚ := ((rne (q * 100) : ℚ)) / 100

/-- the monthly-payment formula as worded in claim C3: P when n = 0, P/n when
the monthly rate m = R/100/12 is 0, and the annuity formula otherwise. -/
def specMonthlyPayment (P R : ℚ) (n : Nat) : ℚ :=
  if n = 0 then P
  else if R / 100 / 12 = 0 then P / (n : ℚ)
  else
    P * (R / 100 / 12) * (1 + R / 100 / 12) ^ n /
      ((1 + R / 100 / 12) ^ n - 1)

/-- all payments across all of a customer's loans, in loan order. -/
def allPayments (c : Customer) : List Payment :=
  (c.loans.map Loan.payments).flatten

/-- the credit-score formula exactly as claim C1 words it, with the on-time
term computed in exact arithmetic: `floor(on/(on+late) * 150)` is the
natural-number division `150*on / (on+late)`. -/
def specCreditScore (c : Customer) : Int :=
  if c.loans.length = 0 then 300
  else
    let pays := allPayments c
    let onTime := pays.countP (fun p => p.is_on_time)
    let lateP := pays.countP (fun p => ! p.is_on_time)
    let raw : Int := 300
      + (if onTime + lateP = 0 then 0 else ((150 * onTime / (onTime + lateP) : Nat) : Int))
      + min ((c.loans.length : Int) * 10) 50
      + c.tier * 25
      - min ((lateP : Int) * 20) 200
    min (max raw 300) 850

/-- the credit-score formula of claim C1 amended at its single divergence
from the code: the on-time term is the truncation of the double-precision
product `(on/(on+late)) * 150`, which can fall one below the exact floor. -/
def pyCreditScore (c : Customer) : Int :=
  if c.loans.length = 0 then 300
  else
    let pays := allPayments c
    let onTime := pays.countP (fun p => p.is_on_time)
    let lateP := pays.countP (fun p => ! p.is_on_time)
    let raw : Int := 300
      + (if onTime + lateP = 0 then 0 else pyOnTimeFactor onTime (onTime + lateP))
      + min ((c.loans.length : Int) * 10) 50
      + c.tier * 25
      - min ((lateP : Int) * 20) 200
    min (max raw 300) 850

/-! ## Helper lemmas -/

/-- the updated borrow limit is the spec's base table times the spec's
multiplier table, applied to the customer's tier and stored score. -/
theorem borrow_limit_closed (c : Customer) :
    c.update_borrow_limit.current_borrow_limit
      = specBaseLimit c.tier * specMultiplier c.credit_score := by
  unfold Customer.update_borrow_limit Customer.get_base_limit_for_tier
    specBaseLimit specMultiplier
  split_ifs <;> norm_num

/-- every base × multiplier product is already exact to 2 decimal places, so
rounding it to 2 decimal places changes nothing. -/
theorem round2_spec_product (t s : Int) :
    round2 (specBaseLimit t * specMultiplier s) = specBaseLimit t * specMultiplier s := by
  unfold specBaseLimit specMultiplier
  split_ifs <;> decide

/-- a left fold adding payment amounts is the sum of the mapped amounts. -/
theorem foldl_add_eq_sum (ps : List Payment) (a : ℚ) :
    ps.foldl (fun acc p => acc + p.amount) a = a + (ps.map Payment.amount).sum := by
  induction ps generalizing a with
  | nil => simp
  | cons p ps ih => simp [ih, add_assoc]

/-- the inner fold of the tally loop adds the on-time and not-on-time counts
of the payment list to the accumulator. -/
theorem tally_inner (ps : List Payment) (ab : Nat × Nat) :
    ps.foldl
        (fun acc2 p =>
          if p.is_on_time then (acc2.1 + 1, acc2.2) else (acc2.1, acc2.2 + 1))
        ab
      = (ab.1 + ps.countP (fun p => p.is_on_time),
         ab.2 + ps.countP (fun p => ! p.is_on_time)) := by
  induction ps generalizing ab with
  | nil => simp
  | cons p ps ih =>
    by_cases h : p.is_on_time
    · simp [List.countP_cons, ih, h, Nat.add_assoc, Nat.add_comm 1]
    · simp [List.countP_cons, ih, h, Nat.add_assoc, Nat.add_comm 1]

/-- the whole tally loop counts on-time and not-on-time payments across all
loans. -/
theorem tallyLoop_count (loans : List Loan) :
    tallyLoop loans
      = ((loans.map Loan.payments).flatten.countP (fun p => p.is_on_time),
         (loans.map Loan.payments).flatten.countP (fun p => ! p.is_on_time)) := by
  unfold tallyLoop
  suffices h : ∀ ab : Nat × Nat,
      loans.foldl
          (fun acc loan =>
            loan.payments.foldl
              (fun acc2 p =>
                if p.is_on_time then (acc2.1 + 1, acc2.2) else (acc2.1, acc2.2 + 1))
              acc)
          ab
        = (ab.1 + (loans.map Loan.payments).flatten.countP (fun p => p.is_on_time),
           ab.2 + (loans.map Loan.payments).flatten.countP (fun p => ! p.is_on_time)) by
    simpa using h (0, 0)
  induction loans with
  | nil => simp
  | cons loan loans ih =>
    intro ab
    rw [List.foldl_cons, tally_inner, ih]
    simp only [List.map_cons, List.flatten_cons, List.countP_append, Prod.mk.injEq]
    omega

/-- the credit-score routine equals the closed-form score `pyCreditScore`
(claim C1's formula with the on-time term computed in binary64). -/
theorem credit_score_closed_form (c : Customer) :
    c.calculate_credit_score = pyCreditScore c := by
  by_cases hnil : c.loans = []
  · simp [Customer.calculate_credit_score, pyCreditScore, hnil]
  · have hlen : ¬ c.loans.length = 0 := by simpa using hnil
    have hpos : 0 < c.loans.length := Nat.pos_of_ne_zero hlen
    simp only [Customer.calculate_credit_score, pyCreditScore, allPayments,
      tallyLoop_count, hnil, hlen, hpos, if_true, if_false, reduceIte]
    generalize (List.map Loan.payments c.loans).flatten.countP (fun p => p.is_on_time) = a
    generalize (List.map Loan.payments c.loans).flatten.countP (fun p => ! p.is_on_time) = b
    generalize pyOnTimeFactor a (a + b) = F
    by_cases hz : a + b = 0
    · simp only [hz, Nat.lt_irrefl, if_false, if_true, reduceIte]
      omega
    · simp only [hz, if_false, if_pos (Nat.pos_of_ne_zero hz)]
      omega

/-- the on-time and not-on-time counts of a payment list partition its
length. -/
theorem count_on_time_add_not (ps : List Payment) :
    ps.countP (fun p => p.is_on_time) + ps.countP (fun p => ! p.is_on_time) = ps.length := by
  induction ps with
  | nil => rfl
  | cons p ps ih => by_cases h : p.is_on_time <;> simp [List.countP_cons, h] <;> omega

/-! ## Claim C1 -/

/-- a customer with one loan carrying 11 on-time payments and 4 payments
with no paid date: the on-time ratio 11/15 rounds (in binary64) to a value
whose product with 150 is just below 110, so the code adds 109 where the
claim's exact floor adds 110. -/
def cexC1 : Customer :=
  { tier := 1, credit_score := 300, current_borrow_limit := 200000,
    is_address_verified := true, approval_status := "approved",
    kyc_verification := none,
    loans := [
      { amount := 120000, interest_rate := 15, duration_months := 15,
        status := "active", approved_by := none, disbursed_at := none,
        due_date := none,
        payments :=
          List.replicate 11
              { amount := 1000, due_date := 0, paid_date := some 0,
                status := "completed" }
            ++ List.replicate 4
              { amount := 1000, due_date := 0, paid_date := none,
                status := "pending" } }] }

set_option maxRecDepth 100000 in
/-- Claim C1 fails on the code: at `cexC1` the credit-score routine returns
364 while the claimed exact-arithmetic formula gives 365 (the on-time term
is 109 in binary64 against an exact floor of 110). -/
theorem claim_c1_counterexample :
    Customer.calculate_credit_score cexC1 = 364
    ∧ specCreditScore cexC1 = 365
    ∧ Customer.calculate_credit_score cexC1 ≠ specCreditScore cexC1 := by
  refine ⟨by decide, by decide, by decide⟩

/-- Claim C1 (amended): with zero loans the score is exactly 300; otherwise
it is the claimed clamped formula, except that the on-time term is
`int((on/(on+late)) * 150)` evaluated in binary64 float arithmetic (the
truncation of the correctly rounded product), which can come out one less
than the exact `floor(on*150/(on+late))`. -/
theorem claim_c1_amended (c : Customer) :
    (c.loans = [] → c.calculate_credit_score = 300)
    ∧ c.calculate_credit_score = pyCreditScore c :=
  ⟨fun h => by simp [Customer.calculate_credit_score, h], credit_score_closed_form c⟩

/-- closed instance of claim C1 (amended) at a customer with no loans:
the score is exactly the base 300. -/
theorem claim_c1_amended_witness :
    Customer.calculate_credit_score
        { tier := 3, credit_score := 300, current_borrow_limit := 2000000,
          is_address_verified := true, approval_status := "approved",
          kyc_verification := none, loans := [] }
      = 300 :=
  (claim_c1_amended _).1 rfl

/-! ## Claim C10 -/

/-- Claim C10: for a customer with loans, a payment with no paid date is
never on-time, and the score formula counts every payment in the ratio
denominator (`(allPayments c).length = on-time + not-on-time`) while the
penalty counts every not-on-time payment — in particular pending
installments whose due date has not yet arrived. -/
theorem claim_c10 (c : Customer) (h : c.loans ≠ []) :
    (∀ p ∈ allPayments c, p.paid_date = none → p.is_on_time = false)
    ∧ c.calculate_credit_score
        = min (max ((300 : Int)
            + (if (allPayments c).length = 0 then 0
               else pyOnTimeFactor ((allPayments c).countP (fun p => p.is_on_time))
                      (allPayments c).length)
            + min ((c.loans.length : Int) * 10) 50
            + c.tier * 25
            - min (((allPayments c).countP (fun p => ! p.is_on_time) : Int) * 20) 200) 300) 850 := by
  constructor
  · intro p _ hnone
    simp [Payment.is_on_time, hnone]
  · rw [credit_score_closed_form]
    simp only [pyCreditScore, allPayments]
    rw [if_neg (show ¬ c.loans.length = 0 by simpa using h)]
    rw [← count_on_time_add_not ((c.loans.map Loan.payments).flatten)]

/-- a customer whose single loan has a single pending installment due far in
the future. -/
def cexC10 : Customer :=
  { tier := 2, credit_score := 300, current_borrow_limit := 500000,
    is_address_verified := true, approval_status := "approved",
    kyc_verification := none,
    loans := [
      { amount := 60000, interest_rate := 15, duration_months := 6,
        status := "disbursed", approved_by := some 1, disbursed_at := some 0,
        due_date := some 180,
        payments := [
          { amount := 10000, due_date := 1000000, paid_date := none,
            status := "pending" }] }] }

/-- closed instance of claim C10: a customer whose single loan has a single
pending installment due far in the future; the claim applies and that
installment is counted late. -/
theorem claim_c10_witness :
    (∀ p ∈ allPayments cexC10, p.paid_date = none → p.is_on_time = false)
    ∧ Customer.calculate_credit_score cexC10
        = min (max ((300 : Int)
            + (if (allPayments cexC10).length = 0 then 0
               else pyOnTimeFactor ((allPayments cexC10).countP (fun p => p.is_on_time))
                      (allPayments cexC10).length)
            + min ((cexC10.loans.length : Int) * 10) 50
            + cexC10.tier * 25
            - min (((allPayments cexC10).countP (fun p => ! p.is_on_time) : Int) * 20) 200) 300) 850 :=
  claim_c10 cexC10 (by decide)

/-! ## Claim C9 -/

deriving instance DecidableEq for Except

/-- an approved customer with no KYC record at all. -/
def kycMissingCustomer : Customer :=
  { tier := 1, credit_score := 300, current_borrow_limit := 200000,
    is_address_verified := true, approval_status := "approved",
    kyc_verification := none, loans := [] }

/-- an approved customer whose KYC record exists but is incomplete
(verification status `'incomplete'`, neither number verified). -/
def kycIncompleteCustomer : Customer :=
  { kycMissingCustomer with
    kyc_verification := some
      { bvn_verified := false, nin_verified := false,
        verification_status := "incomplete" } }

/-- Claim C9 fails on the code: a customer with no KYC record and a customer
with an existing-but-incomplete KYC record receive the identical rejection
message.  `get_kyc_status` reports `'not_started'` for a missing record and
the row status (here `'incomplete'`) otherwise, but the serializer branches
on `'no_kyc'` and `'partial'` — values that never occur — so both customers
fall through to the same generic message. -/
theorem claim_c9_same_reason :
    validate kycMissingCustomer 5000 12
        = .error ("non_field_errors", "KYC verification is required before applying for loans. Please complete your verification process.")
    ∧ validate kycIncompleteCustomer 5000 12
        = .error ("non_field_errors", "KYC verification is required before applying for loans. Please complete your verification process.")
    ∧ Customer.get_kyc_status kycMissingCustomer = "not_started"
    ∧ Customer.get_kyc_status kycIncompleteCustomer = "incomplete" := by
  refine ⟨by decide, by decide, rfl, rfl⟩

/-! ## Claim C2 -/

/-- Claim C2: updating the borrow limit stores exactly
`round2 (base(tier) * multiplier(score))`, with the tables of §4.2, and the
result does not depend on the previous limit (full replacement). -/
theorem claim_c2 (c : Customer) :
    c.update_borrow_limit.current_borrow_limit
      = round2 (specBaseLimit c.tier * specMultiplier c.credit_score)
    ∧ ∀ q : ℚ,
      ({ c with current_borrow_limit := q } : Customer).update_borrow_limit.current_borrow_limit
        = c.update_borrow_limit.current_borrow_limit := by
  refine ⟨?_, fun q => rfl⟩
  rw [round2_spec_product]
  exact borrow_limit_closed c

/-! ## Claim C3 -/

/-- Claim C3: the monthly payment follows the annuity case split on
(P, R, n); the total repayable is monthly × n; the outstanding balance is
the total minus the sum of completed payment amounts. -/
theorem claim_c3 (l : Loan) :
    l.calculate_monthly_payment
        = specMonthlyPayment l.amount l.interest_rate l.duration_months
    ∧ l.get_total_amount = l.calculate_monthly_payment * (l.duration_months : ℚ)
    ∧ l.get_outstanding_balance
        = l.get_total_amount
          - ((l.payments.filter (fun p => p.status == "completed")).map Payment.amount).sum := by
  refine ⟨rfl, rfl, ?_⟩
  unfold Loan.get_outstanding_balance
  rw [foldl_add_eq_sum]
  ring

/-! ## Claim C7 -/

/-- Claim C7: approval succeeds exactly when the loan is pending and the
customer's address is verified; success sets the status to approved and
records the approver; any failure returns an error and no loan state. -/
theorem claim_c7 (approver : Nat) (c : Customer) (l : Loan) :
    (l.status = "pending" ∧ c.is_address_verified = true →
        approve approver c l = .ok { l with status := "approved", approved_by := some approver })
    ∧ (¬ (l.status = "pending" ∧ c.is_address_verified = true) →
        ∃ msg, approve approver c l = .error msg) := by
  constructor
  · rintro ⟨hs, ha⟩
    unfold approve
    rw [if_neg (by simp [hs]), if_neg (by simp [ha])]
  · intro hna
    unfold approve
    by_cases hs : l.status = "pending"
    · have ha : ¬ c.is_address_verified = true := fun ha => hna ⟨hs, ha⟩
      exact ⟨_, by rw [if_neg (by simp [hs]), if_pos (by simp_all)]⟩
    · exact ⟨_, by rw [if_pos hs]⟩

/-- closed instance of claim C7 at a pending loan with a verified address. -/
theorem claim_c7_witness :
    approve 7
        { tier := 1, credit_score := 300, current_borrow_limit := 200000,
          is_address_verified := true, approval_status := "approved",
          kyc_verification := none, loans := [] }
        { amount := 5000, interest_rate := 15, duration_months := 12,
          status := "pending", approved_by := none, disbursed_at := none,
          due_date := none, payments := [] }
      = .ok
          { amount := 5000, interest_rate := 15, duration_months := 12,
            status := "approved", approved_by := some 7, disbursed_at := none,
            due_date := none, payments := [] } :=
  (claim_c7 7 _ _).1 ⟨rfl, rfl⟩

/-! ## Claim C4 -/

/-- saving a loan never changes its monthly payment (only `due_date` can be
filled in). -/
theorem save_monthly_payment (now : Date) (x : Loan) :
    (Loan.save now x).calculate_monthly_payment = x.calculate_monthly_payment := by
  unfold Loan.save
  split <;> rfl

/-- saving a loan never changes its payments. -/
theorem save_payments (now : Date) (x : Loan) :
    (Loan.save now x).payments = x.payments := by
  unfold Loan.save
  split <;> rfl

/-- saving a loan never changes its duration. -/
theorem save_duration (now : Date) (x : Loan) :
    (Loan.save now x).duration_months = x.duration_months := by
  unfold Loan.save
  split <;> rfl

/-- the generated schedule has exactly one payment per month of the loan. -/
theorem create_schedule_length (now : Date) (x : Loan) :
    (create_payment_schedule now x).length = x.duration_months := by
  simp [create_payment_schedule]

/-- the k-th generated payment: the monthly amount, pending, due 30·(k+1)
days after disbursement. -/
theorem create_schedule_get (now : Date) (x : Loan) (k : Nat)
    (hk : k < x.duration_months) :
    (create_payment_schedule now x).get? k
      = some { amount := x.calculate_monthly_payment,
               due_date := now + 30 * ((k : Int) + 1),
               paid_date := none, status := "pending" } := by
  unfold create_payment_schedule
  rw [List.get?_map, List.get?_range hk]
  rfl

/-- Claim C4: disbursement fails on any non-approved loan; on an approved
loan it sets status `disbursed` and the disbursement timestamp, fills in the
final due date only when absent, and appends exactly `duration_months`
pending payments of the monthly amount, due 30·(k+1) days after disbursement
for k = 0..duration-1. -/
theorem claim_c4 (now : Date) (l : Loan) :
    (l.status ≠ "approved" → disburse now l = .error "Only approved loans can be disbursed")
    ∧ (l.status = "approved" →
        ∃ l2, disburse now l = .ok l2
          ∧ l2.status = "disbursed"
          ∧ l2.disbursed_at = some now
          ∧ l2.due_date
              = (if l.due_date = none then some (now + 30 * (l.duration_months : Int))
                 else l.due_date)
          ∧ l2.payments.length = l.payments.length + l.duration_months
          ∧ l2.payments.take l.payments.length = l.payments
          ∧ ∀ k, k < l.duration_months →
              l2.payments.get? (l.payments.length + k)
                = some { amount := l.calculate_monthly_payment,
                         due_date := now + 30 * ((k : Int) + 1),
                         paid_date := none,
                         status := "pending" }) := by
  constructor
  · intro hne
    unfold disburse
    rw [if_pos hne]
  · intro hs
    unfold disburse
    rw [if_neg (by simp [hs])]
    set l0 : Loan := { l with status := "disbursed", disbursed_at := some now } with hl0
    refine ⟨_, rfl, ?_, ?_, ?_, ?_, ?_, ?_⟩
    · unfold Loan.save
      split <;> rfl
    · unfold Loan.save
      split <;> rfl
    · unfold Loan.save
      by_cases hdd : l.due_date = none
      · rw [if_pos ⟨rfl, hdd⟩, if_pos hdd]
      · rw [if_neg (fun hc => hdd hc.2), if_neg hdd]
    · show ((Loan.save now l0).payments ++ create_payment_schedule now (Loan.save now l0)).length
          = l.payments.length + l.duration_months
      rw [save_payments, List.length_append, create_schedule_length, save_duration]
    · show ((Loan.save now l0).payments ++ create_payment_schedule now (Loan.save now l0)).take
          l.payments.length = l.payments
      rw [save_payments]
      exact List.take_left' rfl
    · intro k hk
      show (((Loan.save now l0).payments ++ create_payment_schedule now (Loan.save now l0)).get?
        (l.payments.length + k)) = _
      rw [save_payments]
      have hlen : l0.payments.length = l.payments.length := rfl
      rw [List.get?_append_right (by omega)]
      have hk2 : l.payments.length + k - l0.payments.length = k := by omega
      rw [hk2, create_schedule_get now _ k (by rw [save_duration]; exact hk),
        save_monthly_payment]
      rfl

/-- closed instance of claim C4 at an approved two-month loan with no due
date and no prior payments. -/
theorem claim_c4_witness :
    ∃ l2,
      disburse 100
          { amount := 1200, interest_rate := 0, duration_months := 2,
            status := "approved", approved_by := some 3, disbursed_at := none,
            due_date := none, payments := [] }
        = .ok l2
      ∧ l2.status = "disbursed"
      ∧ l2.disbursed_at = some 100
      ∧ l2.due_date
          = (if (none : Option Date) = none then some ((100 : Int) + 30 * ((2 : Nat) : Int))
             else none)
      ∧ l2.payments.length = ([] : List Payment).length + 2
      ∧ l2.payments.take ([] : List Payment).length = []
      ∧ ∀ k, k < 2 →
          l2.payments.get? (([] : List Payment).length + k)
            = some { amount :=
                       Loan.calculate_monthly_payment
                         { amount := 1200, interest_rate := 0, duration_months := 2,
                           status := "approved", approved_by := some 3,
                           disbursed_at := none, due_date := none, payments := [] },
                     due_date := 100 + 30 * ((k : Int) + 1),
                     paid_date := none,
                     status := "pending" } :=
  (claim_c4 100 _).2 rfl

/-! ## Claim C6 -/

/-- the boolean KYC check holds exactly when a KYC row exists with both
numbers verified and overall status `verified`. -/
theorem is_kyc_verified_iff (c : Customer) :
    c.is_kyc_verified = true
      ↔ ∃ k, c.kyc_verification = some k
          ∧ k.bvn_verified = true ∧ k.nin_verified = true
          ∧ k.verification_status = "verified" := by
  unfold Customer.is_kyc_verified KYCVerification.is_fully_verified
  cases c.kyc_verification with
  | none => simp
  | some k => simp [Bool.and_eq_true, and_assoc]

/-- the boolean account-approval check holds exactly when the approval
status is the literal `approved`. -/
theorem is_account_approved_iff (c : Customer) :
    c.is_account_approved = true ↔ c.approval_status = "approved" := by
  unfold Customer.is_account_approved
  simp

/-- Claim C6: validation accepts exactly when the account is approved, KYC
is fully verified, no loan of the customer is `active`, the amount is within
the current borrow limit, and the duration bounds hold; every rejection
carries a field key (`amount`, `duration_months` or `non_field_errors`), and
no loan is created on rejection. -/
theorem claim_c6 (c : Customer) (amount : ℚ) (dm : Nat)
    (ha : 0 < amount) (hd : 0 < dm) :
    (validate c amount dm = .ok ()
      ↔ (c.approval_status = "approved"
          ∧ (∃ k, c.kyc_verification = some k
              ∧ k.bvn_verified = true ∧ k.nin_verified = true
              ∧ k.verification_status = "verified")
          ∧ (∀ l ∈ c.loans, l.status ≠ "active")
          ∧ amount ≤ c.current_borrow_limit
          ∧ (50000 < amount → dm ≤ 60)
          ∧ (amount ≤ 10000 → dm ≤ 36)))
    ∧ (∀ e, validate c amount dm = .error e →
        e.1 = "amount" ∨ e.1 = "duration_months" ∨ e.1 = "non_field_errors") := by
  have h1 : ¬ amount = 0 := ha.ne'
  have h2 : ¬ dm = 0 := hd.ne'
  constructor
  · unfold validate
    rw [if_neg h1, if_neg h2]
    split_ifs <;>
      simp_all only [is_account_approved_iff, is_kyc_verified_iff, List.any_eq_true,
        beq_iff_eq, reduceCtorEq, false_iff, true_iff, not_le, not_lt, not_and,
        not_or, not_exists, not_forall, Bool.not_eq_true] <;>
      first
        | tauto
        | omega
        | (intro hcond
           obtain ⟨hap, ⟨k, hk, hb, hn, hv⟩, hnoact, hlim2, hb1, hb2⟩ := hcond
           first
             | exact absurd hk (by tauto)
             | omega
             | tauto
             | linarith)
        | (rintro ⟨l, hl, hls⟩
           tauto)
        | (intros
           exfalso
           try simp_all
           first
             | linarith
             | omega
             | tauto)
  · intro e
    unfold validate
    rw [if_neg h1, if_neg h2]
    split_ifs <;> intro he <;> first
      | (injection he with he1; rw [← he1]; tauto)
      | exact absurd he (by simp)

/-- closed instance of claim C6 at an eligible customer: the acceptance
characterisation holds at tier 1 with a verified KYC row, no loans, a
borrow limit of 200000, a 5000 request over 12 months. -/
theorem claim_c6_witness :
    (validate
        { tier := 1, credit_score := 300, current_borrow_limit := 200000,
          is_address_verified := true, approval_status := "approved",
          kyc_verification := some
            { bvn_verified := true, nin_verified := true,
              verification_status := "verified" },
          loans := [] }
        5000 12 = .ok ()
      ↔ ("approved" = "approved"
          ∧ (∃ k, (some { bvn_verified := true, nin_verified := true,
                          verification_status := "verified" } : Option KYCVerification) = some k
              ∧ k.bvn_verified = true ∧ k.nin_verified = true
              ∧ k.verification_status = "verified")
          ∧ (∀ l ∈ ([] : List Loan), l.status ≠ "active")
          ∧ (5000 : ℚ) ≤ 200000
          ∧ ((50000 : ℚ) < 5000 → (12 : Nat) ≤ 60)
          ∧ ((5000 : ℚ) ≤ 10000 → (12 : Nat) ≤ 36)))
    ∧ (∀ e, validate
        { tier := 1, credit_score := 300, current_borrow_limit := 200000,
          is_address_verified := true, approval_status := "approved",
          kyc_verification := some
            { bvn_verified := true, nin_verified := true,
              verification_status := "verified" },
          loans := [] }
        5000 12 = .error e →
        e.1 = "amount" ∨ e.1 = "duration_months" ∨ e.1 = "non_field_errors") :=
  claim_c6 _ 5000 12 (by norm_num) (by norm_num)

/-! ## Claim C5 -/

/-- the loan with payment `j` recorded as completed today. -/
def paidLoan (today : Date) (loan : Loan) (j : Nat) (p : Payment) : Loan :=
  { loan with payments := loan.payments.set j (p.markCompleted today) }

/-- the customer with payment `j` of loan `i` recorded as completed today. -/
def paidCustomer (today : Date) (c : Customer) (i : Nat) (loan : Loan) (j : Nat)
    (p : Payment) : Customer :=
  { c with loans := c.loans.set i (paidLoan today loan j p) }

/-- Claim C5: recording a payment fails exactly when it is already
completed (an error response, no state change); on success the payment
becomes completed with today as paid date, the customer's credit score is
recomputed on the updated history and the borrow limit refreshed from it,
and the parent loan becomes `completed` exactly if the resulting
outstanding balance is ≤ 0. -/
theorem claim_c5 (today : Date) (c : Customer) (i j : Nat) (loan : Loan) (p : Payment)
    (hl : c.loans.get? i = some loan) (hp : loan.payments.get? j = some p) :
    (p.status = "completed" → mark_paid today c i j = .error "Payment is already completed")
    ∧ (p.status ≠ "completed" →
        ∃ c2, mark_paid today c i j = .ok c2
          ∧ (∃ loan2, c2.loans.get? i = some loan2
              ∧ loan2.payments.get? j = some (p.markCompleted today)
              ∧ ((paidLoan today loan j p).get_outstanding_balance ≤ 0 →
                  loan2.status = "completed")
              ∧ (¬ (paidLoan today loan j p).get_outstanding_balance ≤ 0 →
                  loan2 = paidLoan today loan j p))
          ∧ c2.credit_score = (paidCustomer today c i loan j p).calculate_credit_score
          ∧ c2.current_borrow_limit
              = specBaseLimit c.tier
                  * specMultiplier ((paidCustomer today c i loan j p).calculate_credit_score)) := by
  have hi : i < c.loans.length := (List.get?_eq_some.mp hl).1
  have hj : j < loan.payments.length := (List.get?_eq_some.mp hp).1
  constructor
  · intro hcomp
    simp only [mark_paid, hl, hp]
    rw [if_pos hcomp]
  · intro hne
    simp only [mark_paid, hl, hp]
    rw [if_neg hne]
    simp only [paidLoan, paidCustomer]
    by_cases hb :
        ({ loan with payments := loan.payments.set j (p.markCompleted today) } : Loan).get_outstanding_balance
          ≤ (0 : ℚ)
    · rw [if_pos hb]
      refine ⟨_, rfl,
        ⟨Loan.save today
            { ({ loan with payments := loan.payments.set j (p.markCompleted today) } : Loan) with
              status := "completed" },
          ?_, ?_, fun _ => ?_, fun hnb => absurd hb hnb⟩, rfl, ?_⟩
      · exact List.get?_set_eq_of_lt _
          (by simpa [Customer.update_credit_score, Customer.update_borrow_limit] using hi)
      · rw [save_payments]
        exact List.get?_set_eq_of_lt _ (by simpa using hj)
      · unfold Loan.save
        rw [if_neg (fun hcontra => by simpa using hcontra.1)]
      · exact borrow_limit_closed _
    · rw [if_neg hb]
      refine ⟨_, rfl,
        ⟨({ loan with payments := loan.payments.set j (p.markCompleted today) } : Loan),
          ?_, ?_, fun hyes => absurd hyes hb, fun _ => rfl⟩, rfl, ?_⟩
      · exact List.get?_set_eq_of_lt _
          (by simpa [Customer.update_credit_score, Customer.update_borrow_limit] using hi)
      · exact List.get?_set_eq_of_lt _ (by simpa using hj)
      · exact borrow_limit_closed _

/-- a disbursed one-payment loan whose installment is still pending. -/
def markPaidLoan : Loan :=
  { amount := 600, interest_rate := 0, duration_months := 1,
    status := "disbursed", approved_by := some 3, disbursed_at := some 10,
    due_date := some 40,
    payments := [{ amount := 600, due_date := 40, paid_date := none,
                   status := "pending" }] }

/-- the customer owning `markPaidLoan`. -/
def markPaidCustomer : Customer :=
  { tier := 1, credit_score := 300, current_borrow_limit := 200000,
    is_address_verified := true, approval_status := "approved",
    kyc_verification := none, loans := [markPaidLoan] }

/-- closed instance of claim C5: marking the single pending payment of a
one-payment loan records it as completed today. -/
theorem claim_c5_witness :
    ∃ c2, mark_paid 50 markPaidCustomer 0 0 = .ok c2
      ∧ (∃ loan2, c2.loans.get? 0 = some loan2
          ∧ loan2.payments.get? 0
              = some (Payment.markCompleted 50
                  { amount := 600, due_date := 40, paid_date := none, status := "pending" })
          ∧ ((paidLoan 50 markPaidLoan 0
                { amount := 600, due_date := 40, paid_date := none,
                  status := "pending" }).get_outstanding_balance ≤ 0 →
              loan2.status = "completed")
          ∧ (¬ (paidLoan 50 markPaidLoan 0
                { amount := 600, due_date := 40, paid_date := none,
                  status := "pending" }).get_outstanding_balance ≤ 0 →
              loan2 = paidLoan 50 markPaidLoan 0
                { amount := 600, due_date := 40, paid_date := none,
                  status := "pending" }))
      ∧ c2.credit_score
          = (paidCustomer 50 markPaidCustomer 0 markPaidLoan 0
              { amount := 600, due_date := 40, paid_date := none,
                status := "pending" }).calculate_credit_score
      ∧ c2.current_borrow_limit
          = specBaseLimit markPaidCustomer.tier
              * specMultiplier ((paidCustomer 50 markPaidCustomer 0 markPaidLoan 0
                  { amount := 600, due_date := 40, paid_date := none,
                    status := "pending" }).calculate_credit_score) :=
  (claim_c5 50 markPaidCustomer 0 0 markPaidLoan
      { amount := 600, due_date := 40, paid_date := none, status := "pending" }
      rfl rfl).2 (by decide)

/-! ## Claim C8 -/

/-- Claim C8: a request for a subsequent loan is rejected — no loan row is
created — whenever the current loan has no completed payment or some loan of
the customer is still pending. -/
theorem claim_c8 (role : String) (is_owner : Bool) (c : Customer) (i : Nat)
    (amount interest_rate : ℚ) (dm : Nat) (loan : Loan)
    (hl : c.loans.get? i = some loan)
    (h : (∀ p ∈ loan.payments, p.status ≠ "completed")
         ∨ ∃ l2 ∈ c.loans, l2.status = "pending") :
    ∃ msg, request_another_loan role is_owner c i amount interest_rate dm = .error msg := by
  unfold request_another_loan
  by_cases hrole : role = "customer"
  swap
  · exact ⟨_, by rw [if_pos hrole]⟩
  rw [if_neg (by simpa using hrole)]
  by_cases hown : is_owner
  swap
  · exact ⟨_, by rw [if_pos (by simpa using hown)]⟩
  rw [if_neg (by simpa using hown)]
  simp only [hl]
  by_cases hcomp : (loan.payments.filter (fun p => p.status == "completed")).length = 0
  · exact ⟨_, by rw [if_pos hcomp]⟩
  · rw [if_neg hcomp]
    rcases h with hnone | ⟨l2, hl2, hl2s⟩
    · exfalso
      apply hcomp
      rw [List.length_eq_zero]
      rw [List.filter_eq_nil_iff]
      intro q hq
      simpa using hnone q hq
    · have hany : (c.loans.any fun l => l.status == "pending") = true := by
        rw [List.any_eq_true]
        exact ⟨l2, hl2, by simpa using hl2s⟩
      rw [if_pos hany]
      exact ⟨_, rfl⟩

/-- an active loan with a single pending (not completed) installment. -/
def anotherLoanLoan : Loan :=
  { amount := 60000, interest_rate := 15, duration_months := 6,
    status := "active", approved_by := some 3, disbursed_at := some 0,
    due_date := some 180,
    payments := [{ amount := 10000, due_date := 30, paid_date := none,
                   status := "pending" }] }

/-- the customer owning `anotherLoanLoan`. -/
def anotherLoanCustomer : Customer :=
  { tier := 3, credit_score := 300, current_borrow_limit := 2000000,
    is_address_verified := true, approval_status := "approved",
    kyc_verification := none, loans := [anotherLoanLoan] }

/-- closed instance of claim C8: a customer whose only loan has no completed
payment is rejected when requesting another loan. -/
theorem claim_c8_witness :
    ∃ msg, request_another_loan "customer" true anotherLoanCustomer 0 20000 15 12
      = .error msg :=
  claim_c8 "customer" true anotherLoanCustomer 0 20000 15 12 anotherLoanLoan rfl
    (Or.inl (by decide))

end LoanPro
